import Mathlib

/-!
Verification of the post-processing pipeline of ColorizeVideo
(src/colorize_filter.py): the pair of functions `match_histograms`
(lines 56-71) and `post_process_video` (lines 73-96).

Embedding conventions:
* A frame is a row-major raster of 3-channel 8-bit samples; samples are
  modelled as `Nat` with validity `<= 255` stated where a claim needs it.
* Scalar parameters (saturation scale, CLAHE clip limit, blend factor,
  frame rate) are modelled as `Rat`; the numpy/OpenCV float arithmetic the
  repository performs on them (multiply, clip, C-style cast to uint8,
  `int(...)` truncation, `cv2.addWeighted` rounding) is embedded exactly
  over `Rat`.
* Calls into OpenCV that are opaque image transforms (the four `cv2.cvtColor`
  conversions and `CLAHE.apply`) are embedded as an abstract operation
  bundle `CVOps`: theorems quantify over every `CVOps`, hence hold in
  particular for the real library functions. Concrete instantiations
  (`idOps`, `boostOps`) are used only to evaluate at concrete inputs.
-/

namespace ColorizeVideo

/-- A pixel: one 3-channel sample triple (channel 0, channel 1, channel 2);
in BGR frames the order is blue, green, red; in HSV frames hue, saturation,
value; in LAB frames lightness, a, b. -/
abbrev Pixel : Type := Nat × Nat × Nat

/-- A single-channel raster, as produced by `source_lab[:, :, i]`. -/
abbrev Channel : Type := List (List Nat)

/-- A frame: rows of pixels (row-major raster). -/
abbrev Frame : Type := List (List Pixel)

/-- The shape of a frame: the list of its row lengths. -/
def frameShape (f : Frame) : List Nat := f.map List.length

/-- A pixel is valid when every sample fits in 8 bits. -/
abbrev validPixel (p : Pixel) : Prop := p.1 ≤ 255 ∧ p.2.1 ≤ 255 ∧ p.2.2 ≤ 255

/-- A frame is valid when all its samples fit in 8 bits. -/
abbrev validFrame (f : Frame) : Prop := ∀ row ∈ f, ∀ p ∈ row, validPixel p

/-- The opaque OpenCV image operations called by `match_histograms`:
the four color-space conversions (`cv2.cvtColor` with COLOR_BGR2LAB,
COLOR_LAB2BGR, COLOR_BGR2HSV, COLOR_HSV2BGR) and `CLAHE.apply` for a CLAHE
object created with a clip limit and a tile grid size. They belong to the
external library, not to this repository, so the development quantifies
over them. -/
structure CVOps where
  bgr2lab : Frame → Frame
  lab2bgr : Frame → Frame
  bgr2hsv : Frame → Frame
  hsv2bgr : Frame → Frame
  clahe : Rat → Nat × Nat → Channel → Channel

/-- CLAHE_TILE_GRID_SIZE = (8, 8) (colorize_filter.py line 50). -/
def CLAHE_TILE_GRID_SIZE : Nat × Nat := (8, 8)

/-- VIDEO_CODEC = "avc1" (colorize_filter.py line 46). -/
def VIDEO_CODEC : String := "avc1"

/-- Channel extraction `frame[:, :, i]` for i = 0, 1, 2. -/
def channelOf (i : Nat) (f : Frame) : Channel :=
  f.map (List.map fun p => if i = 0 then p.1 else if i = 1 then p.2.1 else p.2.2)

/-- Reassemble a 3-channel frame from its channels; models filling the three
channel planes of `matched_lab = np.zeros_like(source_lab)` by the loop at
colorize_filter.py lines 63-66 (the planes all have the shape of the source,
which the zip realizes when the channel transform preserves shape, as a
numpy assignment requires). -/
def assembleFrame (c0 c1 c2 : Channel) : Frame :=
  List.zipWith (fun r0 r12 => List.zipWith (fun a bc => (a, bc)) r0 r12)
    c0 (List.zipWith (fun r1 r2 => List.zipWith Prod.mk r1 r2) c1 c2)

/-- The per-channel CLAHE loop at colorize_filter.py lines 63-66: for each
of the 3 channels a CLAHE object with the given clip limit and the fixed
8x8 tile grid is created and applied to that channel of the LAB frame. -/
def applyCLAHE3 (ops : CVOps) (clipLimit : Rat) (fr : Frame) : Frame :=
  assembleFrame
    (ops.clahe clipLimit CLAHE_TILE_GRID_SIZE (channelOf 0 fr))
    (ops.clahe clipLimit CLAHE_TILE_GRID_SIZE (channelOf 1 fr))
    (ops.clahe clipLimit CLAHE_TILE_GRID_SIZE (channelOf 2 fr))

/-- Truncation toward zero of a rational, the semantics of a C cast from a
floating value to an integer type (the numpy uint8 store at
colorize_filter.py line 70). -/
def truncQ (q : Rat) : Int := if 0 ≤ q then ⌊q⌋ else ⌈q⌉

/-- One saturation sample after line 70 of colorize_filter.py:
`np.clip(s * saturation_scale, 0, 255)` followed by the store into the
uint8 array (C truncation toward zero). -/
def satScale (scale : Rat) (s : Nat) : Nat :=
  (truncQ (min (max ((s : Rat) * scale) 0) 255)).toNat

/-- Line 70 of colorize_filter.py applied to a whole HSV frame:
`hsv[:, :, 1] = np.clip(hsv[:, :, 1] * saturation_scale, 0, 255)` -
channel 1 (saturation) is rescaled, channels 0 and 2 are untouched. -/
def scaleSat (scale : Rat) (fr : Frame) : Frame :=
  fr.map (List.map fun p => (p.1, satScale scale p.2.1, p.2.2))

/-- `match_histograms(source, template, saturation_scale, clahe_clip_limit)`
(colorize_filter.py lines 56-71), transcribed line by line:
LAB conversion of source and template, per-channel CLAHE of the source LAB
channels, conversion back to BGR, conversion to HSV, saturation rescaling,
conversion back to BGR. The binding `template_lab` (line 61) is computed by
the source and then never used; it is kept here (with a leading underscore
only to acknowledge that it is unused). -/
def match_histograms (ops : CVOps) (source template : Frame)
    (saturation_scale clahe_clip_limit : Rat) : Frame :=
  let source_lab := ops.bgr2lab source
  let _template_lab := ops.bgr2lab template
  let matched_lab := applyCLAHE3 ops clahe_clip_limit source_lab
  let matched_bgr := ops.lab2bgr matched_lab
  let hsv := ops.bgr2hsv matched_bgr
  let hsv' := scaleSat saturation_scale hsv
  ops.hsv2bgr hsv'

/-- The HSV frame computed inside `match_histograms` right after the
equalization steps (the value of `hsv` at line 69, before line 70). -/
def equalizedHSV (ops : CVOps) (source : Frame) (clahe_clip_limit : Rat) : Frame :=
  ops.bgr2hsv (ops.lab2bgr (applyCLAHE3 ops clahe_clip_limit (ops.bgr2lab source)))

/-- The HSV frame computed inside `match_histograms` right after the
saturation rescale (the value of `hsv` after line 70, just before the final
HSV2BGR conversion of line 71). -/
def matchHSVStage (ops : CVOps) (source : Frame)
    (saturation_scale clahe_clip_limit : Rat) : Frame :=
  scaleSat saturation_scale (equalizedHSV ops source clahe_clip_limit)

/-- `match_histograms` is the final HSV2BGR conversion applied to its
saturation-rescaled HSV stage. -/
theorem match_histograms_eq_stage (ops : CVOps) (s t : Frame) (σ κ : Rat) :
    match_histograms ops s t σ κ = ops.hsv2bgr (matchHSVStage ops s σ κ) := rfl

/-- The saturation channel of a frame, as seen through the HSV view of the
given operation bundle (the saturation the library would report for it). -/
def satChannel (ops : CVOps) (f : Frame) : Channel :=
  channelOf 1 (ops.bgr2hsv f)

/-- Concrete operation bundle used to evaluate the development at concrete
inputs: all conversions are the identity and CLAHE returns its input
channel unchanged. -/
def idOps : CVOps :=
  { bgr2lab := id, lab2bgr := id, bgr2hsv := id, hsv2bgr := id
    clahe := fun _ _ c => c }

/-- Concrete operation bundle whose equalization step raises a flat
channel to the constant 200, the direction in which contrast-limited
equalization moves a dark low-contrast channel. -/
def boostOps : CVOps :=
  { bgr2lab := id, lab2bgr := id, bgr2hsv := id, hsv2bgr := id
    clahe := fun _ _ c => c.map (List.map fun _ => 200) }

/- ### Basic lemmas about the saturation rescale -/

theorem satScale_zero (s : Nat) : satScale 0 s = 0 := by
  simp [satScale, truncQ]

theorem satScale_le (σ : Rat) (s : Nat) (h0 : 0 ≤ σ) (h1 : σ ≤ 1) :
    satScale σ s ≤ s := by
  have hnn : (0 : Rat) ≤ (s : Rat) * σ := by positivity
  have hmax : max ((s : Rat) * σ) 0 = (s : Rat) * σ := max_eq_left hnn
  have hle : (s : Rat) * σ ≤ (s : Rat) := by
    calc (s : Rat) * σ ≤ (s : Rat) * 1 := by
          exact mul_le_mul_of_nonneg_left h1 (by positivity)
      _ = (s : Rat) := mul_one _
  have hmin : min ((s : Rat) * σ) 255 ≤ (s : Rat) := le_trans (min_le_left _ _) hle
  have hnn' : (0 : Rat) ≤ min ((s : Rat) * σ) 255 := le_min hnn (by norm_num)
  have htr : truncQ (min (max ((s : Rat) * σ) 0) 255) =
      ⌊min ((s : Rat) * σ) 255⌋ := by
    rw [hmax]; simp [truncQ, hnn']
  have hfl : ⌊min ((s : Rat) * σ) 255⌋ ≤ (s : Int) := by
    have := Int.floor_le_floor hmin
    simpa using this
  simp only [satScale, htr]
  exact Int.toNat_le.mpr hfl

theorem satScale_le_mul (σ : Rat) (s : Nat) (h0 : 0 ≤ σ) :
    ((satScale σ s : Nat) : Rat) ≤ σ * (s : Rat) := by
  have hnn : (0 : Rat) ≤ (s : Rat) * σ := by positivity
  have hmax : max ((s : Rat) * σ) 0 = (s : Rat) * σ := max_eq_left hnn
  have hnn' : (0 : Rat) ≤ min ((s : Rat) * σ) 255 := le_min hnn (by norm_num)
  have htr : truncQ (min (max ((s : Rat) * σ) 0) 255) =
      ⌊min ((s : Rat) * σ) 255⌋ := by
    rw [hmax]; simp [truncQ, hnn']
  have hfl0 : (0 : Int) ≤ ⌊min ((s : Rat) * σ) 255⌋ := Int.floor_nonneg.mpr hnn'
  have hcast : ((((⌊min ((s : Rat) * σ) 255⌋).toNat : Nat)) : Rat)
      = ((⌊min ((s : Rat) * σ) 255⌋ : Int) : Rat) := by
    rw [← Int.cast_natCast, Int.toNat_of_nonneg hfl0]
  simp only [satScale, htr]
  rw [hcast]
  calc ((⌊min ((s : Rat) * σ) 255⌋ : Int) : Rat)
      ≤ min ((s : Rat) * σ) 255 := Int.floor_le _
    _ ≤ (s : Rat) * σ := min_le_left _ _
    _ = σ * (s : Rat) := mul_comm _ _

theorem satScale_eq_floor (σ : Rat) (s : Nat) (h0 : 0 ≤ σ) (h1 : σ ≤ 1)
    (hs : s ≤ 255) : satScale σ s = (⌊(s : Rat) * σ⌋).toNat := by
  have hnn : (0 : Rat) ≤ (s : Rat) * σ := by positivity
  have hmax : max ((s : Rat) * σ) 0 = (s : Rat) * σ := max_eq_left hnn
  have hle : (s : Rat) * σ ≤ 255 := by
    calc (s : Rat) * σ ≤ (s : Rat) * 1 := mul_le_mul_of_nonneg_left h1 (by positivity)
      _ = (s : Rat) := mul_one _
      _ ≤ 255 := by exact_mod_cast hs
  have hmin : min ((s : Rat) * σ) 255 = (s : Rat) * σ := min_eq_left hle
  simp [satScale, hmax, hmin, truncQ, hnn]

/- ### The blend: cv2.addWeighted semantics -/

/-- OpenCV rounding (cvRound): round to nearest, ties to even. Used by
`cv2.addWeighted` when storing the weighted sum into an 8-bit array. -/
def cvRound (q : Rat) : Int :=
  let f := ⌊q⌋
  let r := q - (f : Rat)
  if r < 1 / 2 then f else if 1 / 2 < r then f + 1 else if Even f then f else f + 1

/-- Saturation cast of an integer into the 8-bit sample range
(OpenCV saturate_cast to uchar). -/
def saturateUint8 (z : Int) : Nat := (min (max z 0) 255).toNat

/-- One sample of `cv2.addWeighted(src1, alpha, src2, beta, 0)`:
saturate_cast(cvRound(alpha * x + beta * y)); the gamma argument is the
literal 0 at colorize_filter.py line 91 and is folded in. -/
def addWeightedSample (α : Rat) (x : Nat) (β : Rat) (y : Nat) : Nat :=
  saturateUint8 (cvRound (α * (x : Rat) + β * (y : Rat)))

/-- `cv2.addWeighted` on one pixel: each of the 3 channels independently. -/
def addWeightedPixel (α β : Rat) (p q : Pixel) : Pixel :=
  (addWeightedSample α p.1 β q.1,
   addWeightedSample α p.2.1 β q.2.1,
   addWeightedSample α p.2.2 β q.2.2)

/-- `cv2.addWeighted(f, alpha, g, beta, 0)` on whole frames
(colorize_filter.py line 91). -/
def addWeighted (α : Rat) (f : Frame) (β : Rat) (g : Frame) : Frame :=
  List.zipWith (List.zipWith (addWeightedPixel α β)) f g

/- ### The pipeline: post_process_video -/

/-- The error taxonomy of the spec. `videoOpenError` stands for the
RuntimeError raised at colorize_filter.py line 77 when the first
`cap.read()` fails (unopenable input or zero decodable frames);
`invalidFrameError` is the error the spec proposes for malformed frames
(no site in the source raises it). -/
inductive PipelineError where
  | videoOpenError
  | invalidFrameError
deriving DecidableEq, Repr

/-- Input stream metadata as reported by `cap.get`: frame rate (a float
property, possibly fractional) and integral width and height. -/
structure VideoMeta where
  fps : Rat
  width : Nat
  height : Nat
deriving DecidableEq, Repr

/-- An input video: its metadata and the finite ordered list of frames the
decoder yields via successive `cap.read()` calls. An unopenable file and a
zero-frame file both make the very first read fail and are modelled alike
by an empty frame list. -/
structure InputVideo where
  meta : VideoMeta
  frames : List Frame
deriving DecidableEq, Repr

/-- Output stream metadata as passed to `cv2.VideoWriter`: the frame rate
is an integer because the source writes `int(cap.get(cv2.CAP_PROP_FPS))`
(colorize_filter.py line 79). -/
structure OutputMeta where
  fps : Int
  width : Nat
  height : Nat
deriving DecidableEq, Repr

/-- The output video assembled by `out.write` calls: metadata handed to
`cv2.VideoWriter`, the codec fourcc, and the written frames in order. -/
structure OutputVideo where
  meta : OutputMeta
  codec : String
  frames : List Frame
deriving DecidableEq, Repr

/-- The body of one iteration of the while loop at colorize_filter.py
lines 86-93, given the loop state `prev_frame` and the freshly decoded
`frame`: returns the frame written by `out.write` together with the next
value of `prev_frame` (line 93 stores the raw decoded frame, not the
matched or blended one). -/
def processStep (ops : CVOps) (σ κ b : Rat) (prev frame : Frame) : Frame × Frame :=
  let matched := match_histograms ops frame prev σ κ
  let blended := addWeighted (1 - b) frame b matched
  (blended, frame)

/-- The whole while loop of colorize_filter.py lines 86-93: successive
`cap.read()` results are the elements of `fs`; the list of frames written
by `out.write` is returned. -/
def processLoop (ops : CVOps) (σ κ b : Rat) : Frame → List Frame → List Frame
  | _, [] => []
  | prev, f :: rest =>
    (processStep ops σ κ b prev f).1 ::
      processLoop ops σ κ b (processStep ops σ κ b prev f).2 rest

/-- Instrumented trace of the loop state: the value of `prev_frame` before
each iteration of the while loop and after the last one, computed with the
same state update as `processLoop` (the second component of
`processStep`, i.e. line 93). -/
def prevTrace (ops : CVOps) (σ κ b : Rat) : Frame → List Frame → List Frame
  | prev, [] => [prev]
  | prev, f :: rest =>
    prev :: prevTrace ops σ κ b (processStep ops σ κ b prev f).2 rest

/-- `post_process_video(input_path, output_path, saturation_scale,
clahe_clip_limit, blend_factor)` (colorize_filter.py lines 73-96).
The first `cap.read()` failing (empty frame list) raises the RuntimeError
of line 77 before the writer is even created, so no frame is written in
that case. Otherwise the writer is created with
`int(fps)`, `int(width)`, `int(height)` and the avc1 fourcc, and the loop
runs over the remaining frames with `prev_frame` seeded from frame 0. -/
def post_process_video (ops : CVOps) (input : InputVideo) (σ κ b : Rat) :
    Except PipelineError OutputVideo :=
  match input.frames with
  | [] => Except.error PipelineError.videoOpenError
  | prev0 :: rest =>
    Except.ok
      { meta := { fps := truncQ input.meta.fps
                  width := input.meta.width
                  height := input.meta.height }
        codec := VIDEO_CODEC
        frames := processLoop ops σ κ b prev0 rest }

/-- `match_histograms` viewed as a fallible computation: its body
(colorize_filter.py lines 56-71) contains no raise statement and no
dimension check, so it always returns normally. -/
def matchHistogramsRun (ops : CVOps) (source template : Frame) (σ κ : Rat) :
    Except PipelineError Frame :=
  Except.ok (match_histograms ops source template σ κ)

/- ### Loop lemmas -/

theorem processStep_snd (ops : CVOps) (σ κ b : Rat) (prev f : Frame) :
    (processStep ops σ κ b prev f).2 = f := rfl

theorem processLoop_length (ops : CVOps) (σ κ b : Rat) :
    ∀ (fs : List Frame) (prev : Frame),
      (processLoop ops σ κ b prev fs).length = fs.length
  | [], _ => rfl
  | f :: rest, prev => by
    simp [processLoop, processLoop_length ops σ κ b rest]

theorem processLoop_getElem? (ops : CVOps) (σ κ b : Rat) :
    ∀ (fs : List Frame) (prev : Frame) (i : Nat) (fcur fprev : Frame),
      fs[i]? = some fcur → (prev :: fs)[i]? = some fprev →
      (processLoop ops σ κ b prev fs)[i]? =
        some (addWeighted (1 - b) fcur b (match_histograms ops fcur fprev σ κ))
  | [], _, i, _, _ => by intro h _; simp at h
  | f :: rest, prev, 0, fcur, fprev => by
    intro h1 h2
    simp only [List.getElem?_cons_zero, Option.some.injEq] at h1 h2
    subst h1; subst h2
    simp [processLoop, processStep]
  | f :: rest, prev, i + 1, fcur, fprev => by
    intro h1 h2
    simp only [List.getElem?_cons_succ] at h1 h2
    simpa [processLoop] using
      processLoop_getElem? ops σ κ b rest f i fcur fprev h1 h2

theorem truncQ_intCast (n : Int) : truncQ ((n : Int) : Rat) = n := by
  rcases le_or_lt 0 ((n : Rat)) with h | h
  · simp [truncQ, h]
  · simp [truncQ, not_le.mpr h]

/- ### Claim theorems -/

/-- C1. For every input video with at least one decodable frame,
`post_process_video` writes exactly `N - 1` frames; written frame `i`
(0-based) is `cv2.addWeighted(frame, 1 - b, matched, b, 0)` where `frame`
is raw input frame `i + 1` and `matched` is its `match_histograms` variant
computed against raw input frame `i`; in particular input frame 0 only
seeds the lookback and is never written. -/
theorem post_process_video_frames (ops : CVOps) (σ κ b : Rat)
    (input : InputVideo) (out : OutputVideo)
    (h : post_process_video ops input σ κ b = Except.ok out) :
    out.frames.length = input.frames.length - 1 ∧
    ∀ i fprev fcur, input.frames[i]? = some fprev →
      input.frames[i + 1]? = some fcur →
      out.frames[i]? =
        some (addWeighted (1 - b) fcur b (match_histograms ops fcur fprev σ κ)) := by
  rcases hfr : input.frames with _ | ⟨f0, rest⟩
  · rw [post_process_video, hfr] at h
    exact absurd h (by simp)
  · rw [post_process_video, hfr] at h
    have hout : out.frames = processLoop ops σ κ b f0 rest := by
      cases h; rfl
    constructor
    · rw [hout, processLoop_length]
      simp
    · intro i fprev fcur h1 h2
      rw [List.getElem?_cons_succ] at h2
      rw [hout]
      exact processLoop_getElem? ops σ κ b rest f0 i fcur fprev h2 h1

/-- C2. The template (reference) frame has no influence on the output of
`match_histograms`: its LAB conversion is computed (line 61) and then never
used, so any two template frames give the same result. -/
theorem match_histograms_template_irrelevant (ops : CVOps) (s r1 r2 : Frame)
    (σ κ : Rat) :
    match_histograms ops s r1 σ κ = match_histograms ops s r2 σ κ := rfl

/-- C6. The lookback state of the pipeline loop always holds the raw
decoded frames: one step stores the raw frame (line 93), and over a whole
run seeded with frame 0 the trace of `prev_frame` values is exactly the
input frame list - after processing input frame `i` the state is raw input
frame `i`, never a matched or blended frame. -/
theorem prev_frame_tracks_raw_input (ops : CVOps) (σ κ b : Rat) :
    (∀ prev f, (processStep ops σ κ b prev f).2 = f) ∧
    ∀ (f0 : Frame) (rest : List Frame),
      prevTrace ops σ κ b f0 rest = f0 :: rest := by
  refine ⟨fun _ _ => rfl, fun f0 rest => ?_⟩
  induction rest generalizing f0 with
  | nil => rfl
  | cons f rest ih => simp [prevTrace, processStep_snd, ih]

/-- C7. When the first `cap.read()` fails - the input cannot be opened for
decoding or holds zero decodable frames, both reaching
`post_process_video` as an empty frame list - the run fails with the
open error (the RuntimeError of line 77) and no output frame is ever
written (no output video is produced at all). -/
theorem post_process_video_open_error (ops : CVOps) (σ κ b : Rat)
    (input : InputVideo) (h : input.frames = []) :
    post_process_video ops input σ κ b =
      Except.error PipelineError.videoOpenError ∧
    ∀ out : OutputVideo, post_process_video ops input σ κ b ≠ Except.ok out := by
  constructor
  · rw [post_process_video, h]
  · intro out hcontra
    rw [post_process_video, h] at hcontra
    exact absurd hcontra (by simp)

/-- C9 (amended). `post_process_video` hands the writer the input width and
height unchanged, a fixed avc1 fourcc, and the input frame rate truncated
to an integer by `int(cap.get(cv2.CAP_PROP_FPS))` (line 79); the frame
rate is therefore preserved exactly precisely when the input frame rate is
an integer. -/
theorem post_process_video_metadata (ops : CVOps) (σ κ b : Rat)
    (input : InputVideo) (out : OutputVideo)
    (h : post_process_video ops input σ κ b = Except.ok out) :
    out.meta.width = input.meta.width ∧ out.meta.height = input.meta.height ∧
    out.meta.fps = truncQ input.meta.fps ∧ out.codec = VIDEO_CODEC ∧
    ∀ n : Int, input.meta.fps = (n : Rat) →
      ((out.meta.fps : Int) : Rat) = input.meta.fps := by
  rcases hfr : input.frames with _ | ⟨f0, rest⟩
  · rw [post_process_video, hfr] at h
    exact absurd h (by simp)
  · rw [post_process_video, hfr] at h
    cases h
    refine ⟨rfl, rfl, rfl, rfl, ?_⟩
    intro n hn
    simp [hn, truncQ_intCast]

/-- C9 counterexample. An input whose frame rate is 29.97 (the common NTSC
rate) is written out at the truncated rate 29: the output frame rate does
not exactly equal the input frame rate. -/
theorem fps_not_preserved_exactly :
    post_process_video idOps
        { meta := { fps := 2997 / 100, width := 640, height := 480 },
          frames := [[[(0, 0, 0)]], [[(0, 0, 0)]]] } (8 / 10) (1 / 2) (6 / 10) =
      Except.ok
        { meta := { fps := 29, width := 640, height := 480 },
          codec := "avc1",
          frames := [[[(0, 0, 0)]]] } ∧
    ((29 : Int) : Rat) ≠ 2997 / 100 := by
  constructor
  · simp only [post_process_video, processLoop, processStep, match_histograms,
      applyCLAHE3, assembleFrame, channelOf, idOps, scaleSat, satScale, truncQ,
      addWeighted, addWeightedPixel, addWeightedSample, saturateUint8, cvRound,
      CLAHE_TILE_GRID_SIZE, VIDEO_CODEC, id_eq, List.map, List.zipWith]
    norm_num
  · norm_num

/-- C10. The saturation scaling step of `match_histograms` (line 70)
multiplies the 8-bit saturation sample by the scale over the reals, clips
the product to [0, 255], and truncates toward zero on the store back into
the uint8 array; for a scale in [0, 1] the stored sample is exactly the
floor of `s * scale` and never exceeds `s`. -/
theorem satScale_floor_spec (σ : Rat) (s : Nat) (h0 : 0 ≤ σ) (h1 : σ ≤ 1)
    (hs : s ≤ 255) :
    satScale σ s = (⌊(s : Rat) * σ⌋).toNat ∧ satScale σ s ≤ s :=
  ⟨satScale_eq_floor σ s h0 h1 hs, satScale_le σ s h0 h1⟩

/-- C10 witness: scale one half applied to the sample 5 stores
floor(5 / 2) = 2. -/
theorem satScale_floor_spec_witness :
    satScale (1 / 2) 5 = (⌊((5 : Nat) : Rat) * (1 / 2)⌋).toNat ∧
    satScale (1 / 2) 5 ≤ 5 :=
  satScale_floor_spec (1 / 2) 5 (by norm_num) (by norm_num) (by norm_num)

/- ### Saturation of written BGR frames, and the C5 scenario -/

/-- The saturation of a BGR pixel under the standard 8-bit HSV convention
OpenCV uses: S = 255 * (max - min) / max, and 0 for black. Used only to
state what saturation a written BGR output pixel has. -/
def satOfPixel (p : Pixel) : Nat :=
  if max p.1 (max p.2.1 p.2.2) = 0 then 0
  else 255 * (max p.1 (max p.2.1 p.2.2) - min p.1 (min p.2.1 p.2.2)) /
    max p.1 (max p.2.1 p.2.2)

/-- C5 counterexample. Run with saturation scale 0 and blend factor 0 (a
value in [0, 1]) on a two-frame video whose second frame is pure blue:
the single written frame is the raw second frame itself (blend factor 0
keeps the original), whose saturation is 255, not 0 - full desaturation
does not hold independently of the blend factor. -/
theorem desaturation_not_independent_of_blend :
    post_process_video idOps
        { meta := { fps := 25, width := 1, height := 1 },
          frames := [[[(0, 0, 0)]], [[(255, 0, 0)]]] } 0 (1 / 2) 0 =
      Except.ok
        { meta := { fps := 25, width := 1, height := 1 },
          codec := "avc1", frames := [[[(255, 0, 0)]]] } ∧
    satOfPixel (255, 0, 0) = 255 ∧ (255 : Nat) ≠ 0 := by
  refine ⟨?_, by decide, by decide⟩
  simp only [post_process_video, processLoop, processStep, match_histograms,
    applyCLAHE3, assembleFrame, channelOf, idOps, scaleSat, satScale, truncQ,
    addWeighted, addWeightedPixel, addWeightedSample, saturateUint8, cvRound,
    CLAHE_TILE_GRID_SIZE, VIDEO_CODEC, id_eq, List.map, List.zipWith]
  norm_num
  decide

/-- C5 (amended). With saturation scale 0 the matched variant is fully
desaturated: the saturation channel of the HSV frame computed by
`match_histograms` (after line 70, the channel the final conversion of
line 71 consumes) is 0 at every pixel, for every clip limit; the written
output frames are blends `f * (1 - b) + matched * b` of the raw frame
with this desaturated matched frame, so their saturation is 0 in general
only when the blend factor is 1. -/
theorem matched_fully_desaturated (ops : CVOps) (s : Frame) (κ : Rat) :
    channelOf 1 (matchHSVStage ops s 0 κ) =
      (channelOf 1 (equalizedHSV ops s κ)).map (List.map fun _ => 0) := by
  simp [matchHSVStage, scaleSat, channelOf, List.map_map, Function.comp,
    satScale_zero]

/- ### C4: saturation bound relative to the equalized frame -/

theorem forall₂_map_self {R : Nat → Nat → Prop} (g : Nat → Nat)
    (hg : ∀ x, R x (g x)) : ∀ l : List Nat, List.Forall₂ R l (l.map g)
  | [] => List.Forall₂.nil
  | x :: xs => List.Forall₂.cons (hg x) (forall₂_map_self g hg xs)

theorem forall₂_map_self₂ {R : Nat → Nat → Prop} (g : Nat → Nat)
    (hg : ∀ x, R x (g x)) :
    ∀ ch : Channel, List.Forall₂ (List.Forall₂ R) ch (ch.map (List.map g))
  | [] => List.Forall₂.nil
  | r :: rs => List.Forall₂.cons (forall₂_map_self g hg r) (forall₂_map_self₂ g hg rs)

theorem channelOf_one_scaleSat (σ : Rat) (fr : Frame) :
    channelOf 1 (scaleSat σ fr) = (channelOf 1 fr).map (List.map (satScale σ)) := by
  simp [channelOf, scaleSat, List.map_map, Function.comp]

/-- C4 (amended). The saturation bound of `match_histograms` holds relative
to the equalized intermediate frame, not the original input: for every
scale in [0, 1], each saturation sample stored by line 70 is at most
scale times the corresponding saturation sample of the HSV frame obtained
from the equalization steps (as a rational, hence up to rounding down),
and in particular never exceeds it. -/
theorem sat_bounded_by_equalized (ops : CVOps) (s : Frame) (σ κ : Rat)
    (h0 : 0 ≤ σ) (h1 : σ ≤ 1) :
    List.Forall₂
      (List.Forall₂ fun (a c : Nat) => ((c : Nat) : Rat) ≤ σ * ((a : Nat) : Rat) ∧ c ≤ a)
      (channelOf 1 (equalizedHSV ops s κ))
      (channelOf 1 (matchHSVStage ops s σ κ)) := by
  simp only [matchHSVStage, channelOf_one_scaleSat]
  exact forall₂_map_self₂ (satScale σ)
    (fun x => ⟨satScale_le_mul σ x h0, satScale_le σ x h0 h1⟩) _

/-- C4 witness: with identity conversions on the frame holding the single
pixel (1, 2, 3) and scale one half, the stored saturation 1 is bounded by
half of the equalized saturation 2. -/
theorem sat_bounded_by_equalized_witness :
    List.Forall₂
      (List.Forall₂ fun (a c : Nat) => ((c : Nat) : Rat) ≤ (1 / 2) * ((a : Nat) : Rat) ∧ c ≤ a)
      (channelOf 1 (equalizedHSV idOps [[(1, 2, 3)]] 1))
      (channelOf 1 (matchHSVStage idOps [[(1, 2, 3)]] (1 / 2) 1)) :=
  sat_bounded_by_equalized idOps [[(1, 2, 3)]] (1 / 2) 1 (by norm_num) (by norm_num)

/-- C4 counterexample. The claim bounds the output saturation by the scale
times the saturation of the original input frame; it fails as soon as the
equalization step raises the saturation channel, which contrast-limited
equalization does on a dark low-contrast frame. With an operation bundle
whose equalization lifts the flat channels of the one-pixel frame
(0, 10, 0) to 200 and scale 1 (clip limit one half), the returned frame
has saturation 200 while the original frame has saturation 10: 200 is not
at most the rounded-up product 1 * 10. -/
theorem sat_not_bounded_by_original :
    satChannel boostOps
        (match_histograms boostOps [[(0, 10, 0)]] [[(0, 10, 0)]] 1 (1 / 2)) =
      [[200]] ∧
    satChannel boostOps [[(0, 10, 0)]] = [[10]] ∧
    ¬ ((200 : Nat) ≤ (⌈(1 : Rat) * (10 : Rat)⌉).toNat) := by
  refine ⟨?_, by simp [satChannel, channelOf, boostOps], ?_⟩
  · simp only [satChannel, match_histograms, applyCLAHE3, assembleFrame,
      channelOf, boostOps, scaleSat, satScale, truncQ, CLAHE_TILE_GRID_SIZE,
      id_eq, List.map, List.zipWith]
    norm_num
    decide
  · norm_num

/- ### C8: no dimension check in match_histograms -/

/-- C8 (amended). `match_histograms` performs no dimension check: for every
pair of frames, in particular of mismatched dimensions, the call returns a
result normally (the body has no raise statement), instead of failing with
the invalid-frame error. -/
theorem match_histograms_no_dimension_check (ops : CVOps) (s t : Frame)
    (σ κ : Rat) (_h : frameShape s ≠ frameShape t) :
    ∃ f, matchHistogramsRun ops s t σ κ = Except.ok f := ⟨_, rfl⟩

/-- C8 witness: a 1x1 source against a 2x2 template returns normally. -/
theorem match_histograms_no_dimension_check_witness :
    ∃ f, matchHistogramsRun idOps [[(1, 2, 3)]]
      [[(0, 0, 0), (0, 0, 0)], [(0, 0, 0), (0, 0, 0)]] (8 / 10) (1 / 2) =
        Except.ok f :=
  match_histograms_no_dimension_check idOps [[(1, 2, 3)]]
    [[(0, 0, 0), (0, 0, 0)], [(0, 0, 0), (0, 0, 0)]] (8 / 10) (1 / 2) (by decide)

/-- C8 counterexample. A 1x1 source and a 2x2 template have mismatched
dimensions, yet the call does not fail with the invalid-frame error: it
silently returns a result (the template never influences the body). -/
theorem mismatched_dimensions_no_error :
    frameShape [[(1, 2, 3)]] ≠
      frameShape [[(0, 0, 0), (0, 0, 0)], [(0, 0, 0), (0, 0, 0)]] ∧
    matchHistogramsRun idOps [[(1, 2, 3)]]
      [[(0, 0, 0), (0, 0, 0)], [(0, 0, 0), (0, 0, 0)]] (8 / 10) (1 / 2) ≠
        Except.error PipelineError.invalidFrameError := by
  constructor
  · decide
  · intro hcontra
    rw [matchHistogramsRun] at hcontra
    exact Except.noConfusion hcontra

/- ### C3: blend boundary law -/

theorem cvRound_natCast (n : Nat) : cvRound ((n : Nat) : Rat) = (n : Int) := by
  simp only [cvRound, Int.floor_natCast, Int.cast_natCast, sub_self]
  norm_num

theorem saturateUint8_of_le (n : Nat) (h : n ≤ 255) :
    saturateUint8 ((n : Nat) : Int) = n := by
  have h1 : max ((n : Nat) : Int) 0 = ((n : Nat) : Int) := max_eq_left (by positivity)
  have h2 : min ((n : Nat) : Int) 255 = ((n : Nat) : Int) :=
    min_eq_left (by exact_mod_cast h)
  simp [saturateUint8, h1, h2]

theorem addWeightedSample_left (x y : Nat) (hx : x ≤ 255) :
    addWeightedSample 1 x 0 y = x := by
  have hsum : (1 : Rat) * ((x : Nat) : Rat) + 0 * ((y : Nat) : Rat) =
      ((x : Nat) : Rat) := by ring
  rw [addWeightedSample, hsum, cvRound_natCast, saturateUint8_of_le x hx]

theorem addWeightedSample_right (x y : Nat) (hy : y ≤ 255) :
    addWeightedSample 0 x 1 y = y := by
  have hsum : (0 : Rat) * ((x : Nat) : Rat) + 1 * ((y : Nat) : Rat) =
      ((y : Nat) : Rat) := by ring
  rw [addWeightedSample, hsum, cvRound_natCast, saturateUint8_of_le y hy]

theorem addWeightedPixel_left (p q : Pixel) (hp : validPixel p) :
    addWeightedPixel 1 0 p q = p := by
  obtain ⟨h1, h2, h3⟩ := hp
  simp [addWeightedPixel, addWeightedSample_left _ _ h1,
    addWeightedSample_left _ _ h2, addWeightedSample_left _ _ h3]

theorem addWeightedPixel_right (p q : Pixel) (hq : validPixel q) :
    addWeightedPixel 0 1 p q = q := by
  obtain ⟨h1, h2, h3⟩ := hq
  simp [addWeightedPixel, addWeightedSample_right _ _ h1,
    addWeightedSample_right _ _ h2, addWeightedSample_right _ _ h3]

theorem zipWith_addWeightedPixel_left :
    ∀ (r s : List Pixel), r.length = s.length → (∀ p ∈ r, validPixel p) →
      List.zipWith (addWeightedPixel 1 0) r s = r
  | [], _, _, _ => by simp
  | p :: r, [], h, _ => by simp at h
  | p :: r, q :: s, h, hv => by
    simp only [List.zipWith_cons_cons]
    rw [addWeightedPixel_left p q (hv p (by simp)),
      zipWith_addWeightedPixel_left r s (by simpa using h)
        (fun x hx => hv x (by simp [hx]))]

theorem zipWith_addWeightedPixel_right :
    ∀ (r s : List Pixel), r.length = s.length → (∀ p ∈ s, validPixel p) →
      List.zipWith (addWeightedPixel 0 1) r s = s
  | [], [], _, _ => by simp
  | [], q :: s, h, _ => by simp at h
  | p :: r, [], h, _ => by simp
  | p :: r, q :: s, h, hv => by
    simp only [List.zipWith_cons_cons]
    rw [addWeightedPixel_right p q (hv q (by simp)),
      zipWith_addWeightedPixel_right r s (by simpa using h)
        (fun x hx => hv x (by simp [hx]))]

theorem addWeighted_left :
    ∀ (f m : Frame), frameShape f = frameShape m → validFrame f →
      addWeighted 1 f 0 m = f
  | [], _, _, _ => by simp [addWeighted]
  | r :: f, [], h, _ => by simp [frameShape] at h
  | r :: f, s :: m, h, hv => by
    simp only [frameShape, List.map_cons, List.cons.injEq] at h
    simp only [addWeighted, List.zipWith_cons_cons]
    rw [zipWith_addWeightedPixel_left r s h.1 (hv r (by simp))]
    have ih := addWeighted_left f m h.2
      (fun row hrow p hp => hv row (by simp [hrow]) p hp)
    simpa [addWeighted] using ih

theorem addWeighted_right :
    ∀ (f m : Frame), frameShape f = frameShape m → validFrame m →
      addWeighted 0 f 1 m = m
  | [], [], _, _ => by simp [addWeighted]
  | [], s :: m, h, _ => by simp [frameShape] at h
  | r :: f, [], h, _ => by simp [frameShape] at h
  | r :: f, s :: m, h, hv => by
    simp only [frameShape, List.map_cons, List.cons.injEq] at h
    simp only [addWeighted, List.zipWith_cons_cons]
    rw [zipWith_addWeightedPixel_right r s h.1 (hv s (by simp))]
    have ih := addWeighted_right f m h.2
      (fun row hrow p hp => hv row (by simp [hrow]) p hp)
    simpa [addWeighted] using ih

/-- C3. The per-sample blend of the pipeline,
`cv2.addWeighted(frame, 1 - b, matched, b, 0)`, is exact at the
boundaries: for blend factor 0 the written frame equals the raw frame,
for blend factor 1 it equals the matched frame, for frames of equal
dimensions with 8-bit samples. -/
theorem blend_boundary_law (f m : Frame) (b : Rat)
    (hshape : frameShape f = frameShape m)
    (hf : validFrame f) (hm : validFrame m) :
    (b = 0 → addWeighted (1 - b) f b m = f) ∧
    (b = 1 → addWeighted (1 - b) f b m = m) := by
  constructor
  · rintro rfl
    norm_num
    exact addWeighted_left f m hshape hf
  · rintro rfl
    norm_num
    exact addWeighted_right f m hshape hm

/-- C3 witness: instantiated at one-pixel frames and blend factor 0. -/
theorem blend_boundary_law_witness :
    ((0 : Rat) = 0 → addWeighted (1 - 0) [[(1, 2, 3)]] 0 [[(4, 5, 6)]] = [[(1, 2, 3)]]) ∧
    ((0 : Rat) = 1 → addWeighted (1 - 0) [[(1, 2, 3)]] 0 [[(4, 5, 6)]] = [[(4, 5, 6)]]) :=
  blend_boundary_law [[(1, 2, 3)]] [[(4, 5, 6)]] 0 (by decide) (by decide) (by decide)

/- ### Witnesses for the pipeline theorems -/

/-- A concrete three-frame input for the C1 witness. -/
def vidC1 : InputVideo :=
  { meta := { fps := 25, width := 1, height := 1 }
    frames := [[[(0, 0, 0)]], [[(1, 2, 3)]], [[(4, 5, 6)]]] }

/-- The output `post_process_video` produces on `vidC1` with identity
conversions, scale 1, clip limit 1 and blend factor 0: the two frames
after frame 0, unchanged. -/
def outC1 : OutputVideo :=
  { meta := { fps := 25, width := 1, height := 1 }
    codec := "avc1"
    frames := [[[(1, 2, 3)]], [[(4, 5, 6)]]] }

theorem vidC1_runs : post_process_video idOps vidC1 1 1 0 = Except.ok outC1 := by
  simp only [post_process_video, processLoop, processStep, match_histograms,
    applyCLAHE3, assembleFrame, channelOf, idOps, scaleSat, satScale, truncQ,
    addWeighted, addWeightedPixel, addWeightedSample, saturateUint8, cvRound,
    CLAHE_TILE_GRID_SIZE, VIDEO_CODEC, vidC1, outC1, id_eq, List.map,
    List.zipWith]
  norm_num
  decide

/-- C1 witness: on the three-frame `vidC1` the run writes 3 - 1 = 2 frames
and written frame i is the blend of raw input frame i + 1 with its matched
variant against raw input frame i. -/
theorem post_process_video_frames_witness :
    outC1.frames.length = vidC1.frames.length - 1 ∧
    ∀ i fprev fcur, vidC1.frames[i]? = some fprev →
      vidC1.frames[i + 1]? = some fcur →
      outC1.frames[i]? =
        some (addWeighted (1 - 0) fcur 0 (match_histograms idOps fcur fprev 1 1)) :=
  post_process_video_frames idOps 1 1 0 vidC1 outC1 vidC1_runs

/-- C7 witness: an input with no decodable frames fails with the open
error and produces no output video. -/
theorem post_process_video_open_error_witness :
    post_process_video idOps
        { meta := { fps := 25, width := 1, height := 1 }, frames := [] } 1 1 0 =
      Except.error PipelineError.videoOpenError ∧
    ∀ out : OutputVideo,
      post_process_video idOps
          { meta := { fps := 25, width := 1, height := 1 }, frames := [] } 1 1 0 ≠
        Except.ok out :=
  post_process_video_open_error idOps 1 1 0
    { meta := { fps := 25, width := 1, height := 1 }, frames := [] } rfl

/-- A concrete single-frame input for the C9 witness. -/
def vidC9 : InputVideo :=
  { meta := { fps := 25, width := 640, height := 480 }
    frames := [[[(0, 0, 0)]]] }

/-- The output `post_process_video` produces on `vidC9`: no frames (the
single input frame only seeds the lookback), integer frame rate 25. -/
def outC9 : OutputVideo :=
  { meta := { fps := 25, width := 640, height := 480 }
    codec := "avc1"
    frames := [] }

theorem vidC9_runs : post_process_video idOps vidC9 1 1 0 = Except.ok outC9 := by
  simp only [post_process_video, processLoop, truncQ, VIDEO_CODEC, vidC9, outC9]
  norm_num

/-- C9 witness: width, height and codec are handed over unchanged and the
integer input rate 25 is preserved exactly. -/
theorem post_process_video_metadata_witness :
    outC9.meta.width = vidC9.meta.width ∧
    outC9.meta.height = vidC9.meta.height ∧
    outC9.meta.fps = truncQ vidC9.meta.fps ∧
    outC9.codec = VIDEO_CODEC ∧
    ∀ n : Int, vidC9.meta.fps = (n : Rat) →
      ((outC9.meta.fps : Int) : Rat) = vidC9.meta.fps :=
  post_process_video_metadata idOps 1 1 0 vidC9 outC9 vidC9_runs

end ColorizeVideo
